import Mathlib

/-!
Shallow embedding of `iclouder.py` (a batch downloader for public iCloud
shared albums) and verification of its specification claims.

Python strings are modelled as `List Char` where character indexing matters
and as `String` where values are only compared or moved around.  Fallible
Python operations (`str.index`, `int(...)`, subscripts that may raise) are
modelled with `Except PyError`.  Network and randomness are modelled as
explicit oracle arguments.
-/

/-- Kinds of Python exceptions raised by the modelled code paths. -/
inductive PyError where
  | valueError (msg : String)
  | indexError
  | typeError
  | keyError
  | unboundLocalError
  | recursionError
deriving DecidableEq, Repr

instance {ε α : Type _} [DecidableEq ε] [DecidableEq α] : DecidableEq (Except ε α) := fun x y =>
  match x, y with
  | .ok a, .ok b =>
    if h : a = b then isTrue (by rw [h]) else isFalse (by intro hc; cases hc; exact h rfl)
  | .ok _, .error _ => isFalse (by intro hc; cases hc)
  | .error _, .ok _ => isFalse (by intro hc; cases hc)
  | .error e, .error f =>
    if h : e = f then isTrue (by rw [h]) else isFalse (by intro hc; cases hc; exact h rfl)

/-- Model of Python `str.index(c)`: position of the first occurrence of `c`,
`ValueError` when absent. -/
def str_index (s : List Char) (c : Char) : Except PyError Nat :=
  match s with
  | [] => .error (.valueError "substring not found")
  | x :: xs =>
    if x = c then .ok 0
    else
      match str_index xs c with
      | .ok i => .ok (i + 1)
      | .error e => .error e

/-- Model of Python `str.rindex(c)`: position of the last occurrence of `c`,
`ValueError` when absent. -/
def str_rindex (s : List Char) (c : Char) : Except PyError Nat :=
  match s with
  | [] => .error (.valueError "substring not found")
  | x :: xs =>
    match str_rindex xs c with
    | .ok i => .ok (i + 1)
    | .error _ => if x = c then .ok 0 else .error (.valueError "substring not found")

/-- Python slice `s[a:b]` for nonnegative bounds: elements at indices
`a, …, b-1` (empty when `b ≤ a`). -/
def py_slice (s : List Char) (a b : Nat) : List Char :=
  (s.drop a).take (b - a)

/-- Source constant `BASE_62_CHAR_SET`. -/
def BASE_62_CHAR_SET : List Char :=
  "0123456789ABCDEFGHIJKLMNOPQRSTUVWXYZabcdefghijklmnopqrstuvwxyz".toList

/-- Accumulator form of the loop in `base62_to_int`:
`t = t * 62 + BASE_62_CHAR_SET.index(c)` for each character. -/
def base62_to_int_from (t : Nat) : List Char → Except PyError Nat
  | [] => .ok t
  | c :: rest =>
    match str_index BASE_62_CHAR_SET c with
    | .error e => .error e
    | .ok i => base62_to_int_from (t * 62 + i) rest

/-- Source function `base62_to_int`: base-62 value of a digit string over
`BASE_62_CHAR_SET`; a character outside the set raises (via `.index`). -/
def base62_to_int (part : List Char) : Except PyError Nat :=
  base62_to_int_from 0 part

/-- Source function `get_partition`.  `url_token[0]` and `url_token[1]` are
subscripts that raise `IndexError` when out of range; `url_token[1:3]` is a
slice and never raises. -/
def get_partition (url_token : List Char) : Except PyError Nat :=
  match url_token with
  | [] => .error .indexError
  | c0 :: rest =>
    if c0 = 'A' then
      match rest with
      | [] => .error .indexError
      | c1 :: _ => base62_to_int [c1]
    else
      base62_to_int (rest.take 2)

/-- Source function `get_source_filename`: `url[url.rindex('/')+1 : url.index('?')]`,
with `rindex` evaluated first. -/
def get_source_filename (url : List Char) : Except PyError (List Char) :=
  match str_rindex url '/' with
  | .error e => .error e
  | .ok ri =>
    match str_index url '?' with
    | .error e => .error e
    | .ok qi => .ok (py_slice url (ri + 1) qi)

/-- Model of the Python built-in `int(s)` on a decimal string: surrounding
spaces are stripped, an optional sign is allowed, and the remainder must be a
nonempty digit string; anything else raises `ValueError` (matching the
numeric-string width/height values of the data model). -/
def py_int_digits (acc : Nat) : List Char → Option Nat
  | [] => some acc
  | c :: rest =>
    if '0' ≤ c ∧ c ≤ '9' then py_int_digits (acc * 10 + (c.toNat - '0'.toNat)) rest
    else none

/-- See `py_int_digits`; `int(s)` for a Python string `s`. -/
def py_int (s : String) : Except PyError Int :=
  let t := ((s.toList.dropWhile (· = ' ')).reverse.dropWhile (· = ' ')).reverse
  let signed : Int × List Char :=
    match t with
    | '+' :: rest => (1, rest)
    | '-' :: rest => (-1, rest)
    | _ => (1, t)
  match signed.2 with
  | [] => .error (.valueError ("invalid literal for int() with base 10: " ++ s))
  | ds =>
    match py_int_digits 0 ds with
    | some n => .ok (signed.1 * n)
    | none => .error (.valueError ("invalid literal for int() with base 10: " ++ s))

/-- A photo derivative as consumed by the code: `width`, `height` and
`checksum` are read with `dict.get`, so each may be absent. -/
structure Derivative where
  width : Option String
  height : Option String
  checksum : Option String
deriving DecidableEq, Repr

/-- A photo of the stream: `photoGuid` plus the ordered
derivative-name → derivative mapping. -/
structure Photo where
  photoGuid : String
  derivatives : List (String × Derivative)
deriving DecidableEq, Repr

/-- The expression `int(derivative.get('width', '0')) * int(derivative.get('height', '0'))`
from the selector loop. -/
def deriv_area (d : Derivative) : Except PyError Int :=
  match py_int (d.width.getD "0") with
  | .error e => .error e
  | .ok w =>
    match py_int (d.height.getD "0") with
    | .error e => .error e
    | .ok h => .ok (w * h)

/-- One iteration of the inner selector loop: update `(maxdim, best_derivative)`
when `dim > maxdim`. -/
def best_step (acc : Int × Option Derivative) (d : Derivative) :
    Except PyError (Int × Option Derivative) :=
  match deriv_area d with
  | .error e => .error e
  | .ok dim => .ok (if acc.1 < dim then (dim, some d) else acc)

/-- The inner selector loop over a photo's derivatives. -/
def best_loop : List (String × Derivative) → Int × Option Derivative →
    Except PyError (Int × Option Derivative)
  | [], acc => .ok acc
  | kv :: rest, acc =>
    match best_step acc kv.2 with
    | .error e => .error e
    | .ok acc2 => best_loop rest acc2

/-- The per-photo result of the inner loop, started from
`maxdim = 0, best_derivative = None`.  A selected derivative always has
positive area, hence is a nonempty dict, so Python's
`if best_derivative:` truthiness test coincides with `Option.isSome`. -/
def best_derivative_of (photo : Photo) : Except PyError (Option Derivative) :=
  match best_loop photo.derivatives (0, none) with
  | .error e => .error e
  | .ok acc => .ok acc.2

/-- The `best_checksums` list built by the first loop of
`filter_best_assets`: `best_derivative.get('checksum')` per photo with a
selected derivative, in photo order. -/
def best_checksums : List Photo → Except PyError (List (Option String))
  | [] => .ok []
  | p :: rest =>
    match best_derivative_of p with
    | .error e => .error e
    | .ok b =>
      match best_checksums rest with
      | .error e => .error e
      | .ok others =>
        match b with
        | some d => .ok (d.checksum :: others)
        | none => .ok others

/-- Whether a Python dict modelled as an ordered
association list has key `k`. -/
def has_key {V : Type} (l : List (String × V)) (k : String) : Bool :=
  l.any (fun kv => kv.1 == k)

/-- Python `d[k] = v` on an insertion-ordered dict: update in place when the
key exists, append otherwise. -/
def dict_set {V : Type} (l : List (String × V)) (k : String) (v : V) : List (String × V) :=
  if has_key l k then l.map (fun kv => if kv.1 == k then (k, v) else kv) else l ++ [(k, v)]

/-- One iteration of the second loop of `filter_best_assets`:
`if checksum in asset_urls: result[checksum] = asset_urls[checksum]`.
A `None` checksum is never a key of the string-keyed dict. -/
def fill_step {V : Type} (asset_urls : List (String × V)) (result : List (String × V))
    (c? : Option String) : List (String × V) :=
  match c? with
  | none => result
  | some c =>
    match asset_urls.lookup c with
    | some v => dict_set result c v
    | none => result

/-- The second loop of `filter_best_assets`, building `result` from `{}`. -/
def assets_fill {V : Type} (asset_urls : List (String × V)) (cks : List (Option String)) :
    List (String × V) :=
  cks.foldl (fill_step asset_urls) []

/-- Source function `filter_best_assets`, polymorphic in the (opaque)
asset-URL values. -/
def filter_best_assets {V : Type} (photos : List Photo) (asset_urls : List (String × V)) :
    Except PyError (List (String × V)) :=
  match best_checksums photos with
  | .error e => .error e
  | .ok cks => .ok (assets_fill asset_urls cks)

/-- The `{url_location, url_path}` entries of the `webasseturls` response, read
with `dict.get` (so possibly absent). -/
structure AssetUrl where
  url_location : Option String
  url_path : Option String
deriving DecidableEq, Repr

/-- Source function `get_url_location`. -/
def get_url_location (item : AssetUrl) : Option String := item.url_location

/-- Source function `get_url_path`. -/
def get_url_path (item : AssetUrl) : Option String := item.url_path

/-- Python f-string interpolation of a value that may be `None`. -/
def py_fstr_opt (o : Option String) : String := o.getD "None"

/-- Source function `get_download_url`: `f"https://{url_location}{url_path}"`. -/
def get_download_url (item : AssetUrl) : List Char :=
  ("https://" ++ py_fstr_opt (get_url_location item) ++ py_fstr_opt (get_url_path item)).toList

/-- Outcome of the POST to `.../sharedstreams/webstream`, as the code reads
it: a 330 body yields the `X-Apple-MMe-Host` field, a 200 body yields
`data.get('photos')` (absent key would give `None`), anything else is an
unexpected status. -/
inductive StreamResp where
  | s330 (newHost : String)
  | s200 (photos : Option (List Photo))
  | other (code : Nat)
deriving DecidableEq, Repr

/-- Outcome of the POST to `.../sharedstreams/webasseturls`:
a 200 body's `items` key (possibly absent), or another status. -/
inductive AssetResp (V : Type) where
  | ok200 (items : Option (List (String × V)))
  | otherStatus (code : Nat)

/-- The remote service, modelled as deterministic response oracles keyed by
host, token (and photo GUIDs for the asset call). -/
structure Server (V : Type) where
  stream : String → String → StreamResp
  assets : String → String → List String → AssetResp V

/-- Source function `get_asset_urls`: returns the parsed 200 body, raises
`ValueError` on any other status. -/
def get_asset_urls {V : Type} (S : Server V) (host token : String) (guids : List String) :
    Except PyError (Option (List (String × V))) :=
  match S.assets host token guids with
  | .ok200 items => .ok items
  | .otherStatus _ => .error (.valueError "Received an unexpected response from the server.")

/-- The `while attempt < retries` loop of `get_stream` around a try-block
whose outcome is `once`.  The oracles are deterministic, so every attempt of
one call yields the same `once`: a successful attempt returns its value, a
failing attempt is retried until `attempt == retries`, when the exception is
re-raised; with `retries = 0` the loop body never runs and the function
returns `None`. -/
def retry_loop {α : Type} (once : Except PyError (Option α)) : Nat → Except PyError (Option α)
  | 0 => .ok none
  | n + 1 =>
    match once with
    | .ok v => .ok v
    | .error e =>
      match n with
      | 0 => .error e
      | m + 1 => retry_loop once (m + 1)

/-- Source function `get_stream`.  On a 330 it calls itself on the new host
(with the default `retries = 3`), with no bound on the number of hops; `fuel`
models the Python call-stack budget, and its exhaustion Python's
`RecursionError`.  On a 200 it fetches the asset URLs and returns
`filter_best_assets(photos, asset_urls.get('items', []))`; any other status
raises `ValueError`.  All of this runs inside the retry loop. -/
def get_stream {V : Type} (S : Server V) :
    Nat → String → String → Nat → Except PyError (Option (List (String × V)))
  | 0, _, _, _ => .error .recursionError
  | fuel + 1, host, token, retries =>
    retry_loop
      (match S.stream host token with
       | .s330 newHost => get_stream S fuel newHost token 3
       | .s200 none => .error .typeError
       | .s200 (some photos) =>
         match get_asset_urls S host token (photos.map (·.photoGuid)) with
         | .error e => .error e
         | .ok items =>
           match filter_best_assets photos (items.getD []) with
           | .error e => .error e
           | .ok r => .ok (some r)
       | .other _ => .error (.valueError "Received an unexpected response from the server."))
      retries

/-- The `__main__` prelude: decode the partition from the token, build the
`p{partition}-sharedstreams.icloud.com` host and fetch the stream.  An
exception from `get_partition` propagates before any request is issued. -/
def main_fetch {V : Type} (S : Server V) (fuel : Nat) (token : List Char) :
    Except PyError (Option (List (String × V))) :=
  match get_partition token with
  | .error e => .error e
  | .ok partition =>
    get_stream S fuel ("p" ++ toString partition ++ "-sharedstreams.icloud.com")
      (String.mk token) 3

/-- Model of `posixpath.join` for two components. -/
def py_path_join (a b : List Char) : List Char :=
  if b.head? = some '/' then b
  else if a = [] ∨ a.getLast? = some '/' then a ++ b
  else a ++ '/' :: b

/-- Observable behaviour of one `download_file` call: logger messages, file
writes `(path, body)`, and the returned value or raised exception. -/
structure DownloadResult (C : Type) where
  logs : List String
  writes : List (List Char × C)
  ret : Except PyError (List Char)
deriving DecidableEq, Repr

/-- Source function `download_file`, with the GET response `(status, content)`
supplied by the caller.  On a non-200 status the code logs and then executes
`return output_file` although `output_file` was never assigned on that path,
raising `UnboundLocalError`.  On a 200 without an explicit filename the name
is `url[url.rindex('/', 0, url.index('?')) + 1 : url.index('?')]`, where
either `index` call may raise `ValueError`. -/
def download_file {C : Type} (status : Nat) (content : C) (url directory : List Char)
    (filename : Option (List Char)) : DownloadResult C :=
  if status ≠ 200 then
    { logs := ["Failed to download a photo.",
               "Status code: " ++ toString status ++ " (for URL: " ++ String.mk url ++ ")"],
      writes := [], ret := .error .unboundLocalError }
  else
    match filename with
    | some f =>
      let out := py_path_join directory f
      { logs := [], writes := [(out, content)], ret := .ok out }
    | none =>
      match str_index url '?' with
      | .error e => { logs := [], writes := [], ret := .error e }
      | .ok endIdx =>
        match str_rindex (url.take endIdx) '/' with
        | .error e => { logs := [], writes := [], ret := .error e }
        | .ok startIdx =>
          let out := py_path_join directory (py_slice url (startIdx + 1) endIdx)
          { logs := [], writes := [(out, content)], ret := .ok out }

/-- The `available_photos` list of `select_random_photos`:
stream keys not on the ignore list. -/
def available_photos {V : Type} (data : List (String × V)) (ignore_list : List String) :
    List String :=
  (data.map Prod.fst).filter (fun g => ¬ ignore_list.contains g)

/-- Source function `select_random_photos`, with `random.sample` supplied as
an oracle: raises `ValueError` when fewer photos are available than
requested, otherwise returns `sample(available_photos, count)`. -/
def select_random_photos {V : Type}
    (sample : List String → Int → Except PyError (List String))
    (data : List (String × V)) (ignore_list : List String) (count : Int) :
    Except PyError (List String) :=
  if ((available_photos data ignore_list).length : Int) < count then
    .error (.valueError "Not enough new photos available to download.")
  else sample (available_photos data ignore_list) count

/-- One admissible deterministic refinement of Python `random.sample(pop, k)`:
the error branch is exact (`ValueError` iff `k` is negative or exceeds the
population size); the success branch returns one particular valid sample,
the first `k` elements. -/
def sample_model (pop : List String) (k : Int) : Except PyError (List String) :=
  if k < 0 ∨ (pop.length : Int) < k then
    .error (.valueError "Sample larger than population or is negative")
  else .ok (pop.take k.toNat)

/-- Python truthiness of the optional integer CLI arguments
(`None` and `0` are falsy). -/
def truthy : Option Int → Bool
  | none => false
  | some n => n != 0

/-- Python `entries[-ig:]`, i.e. `entries[k:]` for `k = -ig` with Python's
negative-index slice semantics. -/
def py_tail_slice (l : List String) (ig : Int) : List String :=
  let k : Int := -ig
  let start : Int := if k < 0 then max 0 ((l.length : Int) + k) else min k (l.length : Int)
  l.drop start.toNat

/-- Python `entry.split(':')[0]`: the entry text before the first colon. -/
def entry_guid (e : String) : String :=
  String.mk (e.toList.takeWhile (fun c => c != ':'))

/-- The `ignore_list` built by `__main__`: the GUID parts of the trailing
`--ignore` log entries when `--ignore` is truthy, else empty. -/
def run_ignore_list (ignore : Option Int) (log_entries : List String) : List String :=
  if truthy ignore then (py_tail_slice log_entries (ignore.getD 0)).map entry_guid else []

/-- The per-download log maintenance of `__main__`: append the new entry,
then pop the oldest entry if the length exceeds `--ignore` (when truthy),
elif it exceeds `--log_downloads` (when truthy). -/
def log_step (ignore lg : Option Int) (entries : List String) (entry : String) : List String :=
  let e := entries ++ [entry]
  if truthy ignore ∧ (e.length : Int) > ignore.getD 0 then e.drop 1
  else if truthy lg ∧ (e.length : Int) > lg.getD 0 then e.drop 1
  else e

/-- The log maintenance applied over a whole run's appended entries. -/
def log_fold (ignore lg : Option Int) (init : List String) (news : List String) : List String :=
  news.foldl (log_step ignore lg) init

/-- Python `rfind`: index of the last occurrence, `-1` when absent. -/
def rfind_idx (s : List Char) (c : Char) : Int :=
  match str_rindex s c with
  | .ok i => (i : Int)
  | .error _ => -1

/-- Model of `os.path.splitext`: split off the extension at the last dot of
the basename, unless the basename consists of leading dots up to it. -/
def py_splitext (p : List Char) : List Char × List Char :=
  let sepIndex := rfind_idx p '/'
  let dotIndex := rfind_idx p '.'
  if sepIndex < dotIndex then
    let fi := (sepIndex + 1).toNat
    let di := dotIndex.toNat
    if ((p.drop fi).take (di - fi)).any (fun c => c != '.') then (p.take di, p.drop di)
    else (p, [])
  else (p, [])

/-- The numbered filename `f"{splitext(f)[0]}_{idx}{splitext(f)[1]}"` used for
multi-photo runs. -/
def numbered (f : List Char) (idx : Nat) : List Char :=
  let se := py_splitext f
  se.1 ++ ('_' :: (toString idx).toList) ++ se.2

/-- The CLI arguments consumed by the selection/download phase.
`filename` has the (truthy) default `random_photo.jpg`. -/
structure RunArgs where
  single : Bool
  count : Int
  filename : List Char
  ignore : Option Int
  log_downloads : Option Int

/-- Outcome of the download loop inside the `try` of `__main__`:
ran to completion, stopped by a `ValueError` caught by the handler, or
crashed on an uncaught exception (which kills the script before the log
file is rewritten). -/
inductive LoopResult (C : Type) where
  | finished (writes : List (List Char × C)) (entries : List String)
  | caught (writes : List (List Char × C)) (entries : List String) (msg : String)
  | crashed (writes : List (List Char × C)) (e : PyError)

/-- The `for idx, photo_guid in enumerate(photo_guids, start=1)` loop of
`__main__`: look the item up, derive the URL and source filename, download,
then append `f"{photo_guid}:{source_filename}"` to the log under the
`log_step` maintenance. -/
def run_loop {C : Type} (http : List Char → Nat × C) (args : RunArgs)
    (data : List (String × AssetUrl)) (directory : List Char) :
    List String → Nat → List (List Char × C) → List String → LoopResult C
  | [], _, ws, entries => .finished ws entries
  | guid :: rest, idx, ws, entries =>
    match data.lookup guid with
    | none => .crashed ws .keyError
    | some item =>
      let url := get_download_url item
      match get_source_filename url with
      | .error (.valueError m) => .caught ws entries m
      | .error e => .crashed ws e
      | .ok sf =>
        let resp := http url
        let fname : Option (List Char) :=
          if args.single then some args.filename
          else if args.filename ≠ [] then some (numbered args.filename idx) else none
        let dl := download_file resp.1 resp.2 url directory fname
        match dl.ret with
        | .error (.valueError m) => .caught (ws ++ dl.writes) entries m
        | .error e => .crashed (ws ++ dl.writes) e
        | .ok _ =>
          run_loop http args data directory rest (idx + 1) (ws ++ dl.writes)
            (log_step args.ignore args.log_downloads entries
              (guid ++ ":" ++ String.mk sf))

/-- Observable behaviour of the selection/download/log phase of `__main__`:
files written, the log file contents written back (`none` when the script
died before the final save), and the error-level log messages. -/
structure RunOutcome (C : Type) where
  writes : List (List Char × C)
  saved_log : Option (List String)
  errors : List String
deriving DecidableEq, Repr

/-- The selection/download/log phase of `__main__` after the stream fetch:
build the ignore list, check `if data:`, select the photos (a `ValueError`
is caught and logged, aborting with no download), run the download loop and
save the resulting log entries. -/
def run_phase {C : Type} (sample : List String → Int → Except PyError (List String))
    (http : List Char → Nat × C) (args : RunArgs) (data : List (String × AssetUrl))
    (log0 : List String) (directory : List Char) : RunOutcome C :=
  if data.isEmpty then
    { writes := [], saved_log := some log0, errors := ["No photos available to download."] }
  else
    match select_random_photos sample data (run_ignore_list args.ignore log0) args.count with
    | .error (.valueError m) => { writes := [], saved_log := some log0, errors := [m] }
    | .error _ => { writes := [], saved_log := none, errors := [] }
    | .ok guids =>
      match run_loop http args data directory guids 1 [] log0 with
      | .finished ws entries => { writes := ws, saved_log := some entries, errors := [] }
      | .caught ws entries m => { writes := ws, saved_log := some entries, errors := [m] }
      | .crashed ws _ => { writes := ws, saved_log := none, errors := [] }

/-- The areas `int(width) * int(height)` of a derivative list, in order;
errors as soon as one value fails to parse (proof-side companion of the
selector loop, built from the same `deriv_area`). -/
def deriv_areas : List (String × Derivative) → Except PyError (List Int)
  | [] => .ok []
  | kv :: rest =>
    match deriv_area kv.2 with
    | .error e => .error e
    | .ok a =>
      match deriv_areas rest with
      | .error e => .error e
      | .ok as => .ok (a :: as)

/-- Pure companion of the selector loop over `(area, derivative)` pairs. -/
def best_fold : List (Int × Derivative) → Int × Option Derivative → Int × Option Derivative
  | [], acc => acc
  | x :: rest, acc => best_fold rest (if acc.1 < x.1 then (x.1, some x.2) else acc)

/-- A concrete server: host `h0` answers 330 pointing at `h1`, `h1` answers
330 pointing at `h2`, every other host answers 200 with one photo whose best
derivative has checksum `C1`; the asset call maps `C1` to the value 42. -/
def mock_server : Server Nat :=
  { stream := fun host _ =>
      if host = "h0" then .s330 "h1"
      else if host = "h1" then .s330 "h2"
      else .s200 (some [⟨"G1", [("one", ⟨some "2", some "2", some "C1"⟩)]⟩]),
    assets := fun _ _ _ => .ok200 (some [("C1", 42)]) }

/-- The concrete stream data for the C4 counterexample run. -/
def c4_data : List (String × AssetUrl) := [("g", ⟨some "h", some "/p/x.jpg?q=1"⟩)]

/-- The concrete CLI arguments for the C4 counterexample run:
one random photo, `--ignore 2`. -/
def c4_args : RunArgs :=
  { single := false, count := 1, filename := "random_photo.jpg".toList,
    ignore := some 2, log_downloads := none }

/-- The asset GET oracle for the C4 counterexample run: every URL yields 200. -/
def c4_http : List Char → Nat × Nat := fun _ => (200, 7)

/-- The concrete CLI arguments for the C8 run witness: two random photos
requested from a one-photo stream. -/
def c8_args : RunArgs :=
  { single := false, count := 2, filename := "random_photo.jpg".toList,
    ignore := some 2, log_downloads := none }

/-- First derivative of the C6 witness photo: area 1. -/
def c6_dA : Derivative := ⟨some "1", some "1", some "CA"⟩

/-- Second derivative of the C6 witness photo: area 6. -/
def c6_dB : Derivative := ⟨some "2", some "3", some "CB"⟩

example : py_int "23" = .ok 23 := by decide
example : py_int "-4" = .ok (-4) := by decide
example : py_int "x" = .error (.valueError "invalid literal for int() with base 10: x") := by
  decide
example :
    filter_best_assets
      [⟨"G1", [("a", ⟨some "1", some "1", some "S"⟩), ("b", ⟨some "2", some "3", some "C1"⟩)]⟩]
      [("C1", (5 : Nat)), ("S", 9)] = .ok [("C1", 5)] := by decide
example :
    filter_best_assets [⟨"G1", [("a", ⟨some "0", some "9", some "C1"⟩)]⟩]
      [("C1", (5 : Nat))] = .ok [] := by decide
example : py_splitext "random_photo.jpg".toList = ("random_photo".toList, ".jpg".toList) := by
  decide
example : numbered "random_photo.jpg".toList 1 = "random_photo_1.jpg".toList := by decide
example : run_ignore_list (some 2) ["a:1", "b:2", "c:3"] = ["b", "c"] := by decide
example : log_fold (some 2) none ["a", "b", "c"] ["d"] = ["b", "c", "d"] := by decide
example : get_partition ['A', '7', 'z'] = .ok 7 := by decide
example : get_partition ['B', '7', '8'] = .ok 442 := by decide
example : get_partition ['B', '7'] = .ok 7 := by decide
example : get_partition ['B'] = .ok 0 := by decide
example : get_partition ['A'] = .error .indexError := by decide
example : get_source_filename "https://h/p/x.jpg?q=1".toList = .ok "x.jpg".toList := by decide
example : get_source_filename "https://h/p/x.jpg".toList =
    .error (.valueError "substring not found") := by decide

/-- A retry loop entered with a positive budget and a deterministic attempt
yields the attempt's own outcome. -/
theorem retry_loop_succ {α : Type} (once : Except PyError (Option α)) :
    ∀ n : Nat, retry_loop once (n + 1) = once := by
  intro n
  induction n with
  | zero => cases once <;> rfl
  | succ m ih =>
    cases once with
    | ok v => rfl
    | error e => exact ih

/-- C1 (counterexample): a stream request answered by two consecutive 330
redirects followed by a 200 succeeds — the code follows the second hop
instead of treating the second 330 as an error. -/
theorem get_stream_two_hops_succeed :
    mock_server.stream "h0" "tok" = .s330 "h1" ∧
    mock_server.stream "h1" "tok" = .s330 "h2" ∧
    get_stream mock_server 10 "h0" "tok" 3 = .ok (some [("C1", 42)]) := by
  decide

/-- C1 (amended): a 330 stream response makes `get_stream` re-issue the whole
request against the new host, with a fresh default retry budget and no bound
on the number of consecutive hops: the call on the redirecting host is
exactly the call on the new host, for every remaining recursion depth. -/
theorem get_stream_redirect_unbounded {V : Type} (S : Server V) (fuel retries : Nat)
    (host token newHost : String) (h : S.stream host token = .s330 newHost) :
    get_stream S (fuel + 1) host token (retries + 1) = get_stream S fuel newHost token 3 := by
  simp only [get_stream, h]
  exact retry_loop_succ _ retries

theorem get_stream_redirect_unbounded_witness :
    get_stream mock_server 10 "h0" "tok" 3 = get_stream mock_server 9 "h1" "tok" 3 :=
  get_stream_redirect_unbounded mock_server 9 2 "h0" "tok" "h1" (by decide)

/-- C2 (code_bug): on a non-200 asset GET, `download_file` logs the failure
and writes no file, but then raises `UnboundLocalError` at
`return output_file` (the variable is only assigned on the 200 path) instead
of returning normally; the exception is not a `ValueError`, so the caller's
handler does not catch it and the run dies. -/
theorem download_file_404_unbound_local :
    (download_file 404 (0 : Nat) "https://h/p/x.jpg?q=1".toList "./".toList none).logs ≠ [] ∧
    (download_file 404 (0 : Nat) "https://h/p/x.jpg?q=1".toList "./".toList none).writes = [] ∧
    (download_file 404 (0 : Nat) "https://h/p/x.jpg?q=1".toList "./".toList none).ret =
      .error .unboundLocalError := by
  decide

/-- C5 (counterexample): the non-`A` token `B7` has length 2 < 3, yet
`get_partition` succeeds (Python's `url_token[1:3]` slice never raises). -/
theorem get_partition_length2_no_failure :
    get_partition ['B', '7'] = .ok 7 ∧ ('B' : Char) ≠ 'A' ∧
    (['B', '7'] : List Char).length < 3 := by
  decide

/-- C5 (amended): `get_partition` fails on a short token only when the token
is empty or starts with `A` and has no second character; non-`A` tokens of
length 1 or 2 succeed on the characters that exist (partition 0 for length
1).  When `get_partition` does raise, `__main__` propagates that exact error
before any network request: the outcome is the same for every server. -/
theorem get_partition_short_tokens :
    (∀ (t : List Char) (e : PyError), get_partition t = .error e →
      ∀ (S : Server Nat) (fuel : Nat), main_fetch S fuel t = .error e) ∧
    get_partition [] = .error .indexError ∧
    get_partition ['A'] = .error .indexError ∧
    (∀ c0 : Char, c0 ≠ 'A' → get_partition [c0] = .ok 0) ∧
    (∀ (c0 c1 : Char) (i : Nat), c0 ≠ 'A' → str_index BASE_62_CHAR_SET c1 = .ok i →
      get_partition [c0, c1] = .ok i) := by
  refine ⟨?_, by decide, by decide, ?_, ?_⟩
  · intro t e h S fuel
    simp [main_fetch, h]
  · intro c0 h
    simp [get_partition, h, base62_to_int, base62_to_int_from]
  · intro c0 c1 i h hi
    simp [get_partition, h, base62_to_int, base62_to_int_from, hi]

theorem get_partition_short_tokens_witness :
    main_fetch mock_server 3 [] = .error .indexError ∧ get_partition ['B'] = .ok 0 :=
  ⟨get_partition_short_tokens.1 [] .indexError (by decide) mock_server 3,
   get_partition_short_tokens.2.2.2.1 'B' (by decide)⟩

/-- C7: for tokens of sufficient length over the base-62 alphabet, an
`A`-token's partition is the base-62 value of its second character, and any
other token's partition is second-character × 62 + third-character. -/
theorem get_partition_base62_values (c0 c1 c2 : Char) (rest : List Char) (i j : Nat)
    (h1 : str_index BASE_62_CHAR_SET c1 = .ok i)
    (h2 : str_index BASE_62_CHAR_SET c2 = .ok j) :
    get_partition ('A' :: c1 :: rest) = .ok i ∧
    (c0 ≠ 'A' → get_partition (c0 :: c1 :: c2 :: rest) = .ok (i * 62 + j)) := by
  constructor
  · simp [get_partition, base62_to_int, base62_to_int_from, h1]
  · intro h
    simp [get_partition, h, base62_to_int, base62_to_int_from, h1, h2]

theorem get_partition_base62_values_witness :
    get_partition ['A', '7', 'z'] = .ok 7 ∧ get_partition ['B', '7', '8', 'z'] = .ok 442 :=
  ⟨(get_partition_base62_values 'B' '7' '8' ['z'] 7 8 (by decide) (by decide)).1,
   (get_partition_base62_values 'B' '7' '8' ['z'] 7 8 (by decide) (by decide)).2 (by decide)⟩

/-- C3 (counterexample): a photo with GUID `G` whose best derivative has
checksum `C` produces the result key `C`, not the photo GUID `G`. -/
theorem filter_best_assets_keys_not_guids :
    filter_best_assets [⟨"G", [("one", ⟨some "2", some "3", some "C"⟩)]⟩]
      [("C", (5 : Nat))] = .ok [("C", 5)] ∧
    [(⟨"G", [("one", ⟨some "2", some "3", some "C"⟩)]⟩ : Photo)].map Photo.photoGuid = ["G"] ∧
    ("C" : String) ≠ "G" := by
  decide

/-- C6 (counterexample): a photo with one derivative of area 0 has a
non-empty derivative set, yet the selector chooses no derivative at all and
contributes no entry even though its checksum is in the asset map. -/
theorem best_derivative_zero_area_none :
    best_derivative_of ⟨"G", [("d", ⟨some "0", some "0", some "C"⟩)]⟩ = .ok none ∧
    filter_best_assets [⟨"G", [("d", ⟨some "0", some "0", some "C"⟩)]⟩]
      [("C", (1 : Nat))] = .ok [] := by
  decide

/-- C9 (counterexample): a non-numeric width is not treated as `'0'`:
`int('x')` raises `ValueError`, so the whole selector call errors instead of
silently excluding the photo. -/
theorem filter_best_assets_nonnumeric_error :
    filter_best_assets [⟨"G", [("d", ⟨some "x", some "5", some "C"⟩)]⟩]
      [("C", (1 : Nat))] = .error (.valueError "invalid literal for int() with base 10: x") := by
  decide

/-- C8 (counterexample): with one available photo and `count = -1` the
availability check `len(available) < count` passes, yet `random.sample`
raises `ValueError` instead of returning "exactly count photos". -/
theorem select_random_negative_count :
    ¬ (((available_photos [("g1", (0 : Nat))] []).length : Int) < -1) ∧
    select_random_photos sample_model [("g1", (0 : Nat))] [] (-1) =
      .error (.valueError "Sample larger than population or is negative") := by
  decide

/-- C4 (counterexample): a run that starts with 5 log entries and window
`--ignore 2` downloads one photo and writes back a log of length 5 — the log
is not truncated to the configured maximum before persisting. -/
theorem run_phase_log_exceeds_window :
    (run_phase sample_model c4_http c4_args c4_data
      ["a:1", "b:2", "c:3", "d:4", "e:5"] "./".toList).saved_log =
      some ["b:2", "c:3", "d:4", "e:5", "g:x.jpg"] ∧
    ¬ (((run_phase sample_model c4_http c4_args c4_data
      ["a:1", "b:2", "c:3", "d:4", "e:5"] "./".toList).saved_log.getD []).length ≤ 2) := by
  decide

/-- One log-maintenance step with a positive `--ignore` window and no
`--log_downloads`: the length grows by one until it reaches the window and
stays put once at or beyond it. -/
theorem log_step_length (m : Int) (hm : 1 ≤ m) (entries : List String) (entry : String) :
    (log_step (some m) none entries entry).length =
      if m ≤ (entries.length : Int) then entries.length else entries.length + 1 := by
  simp only [log_step, truthy, bne_iff_ne, ne_eq, Option.getD_some, Bool.false_eq_true,
    false_and, if_false, List.length_append, List.length_cons, List.length_nil]
  split_ifs with h2 h3 <;>
    simp_all [List.length_drop, List.length_append] <;> omega

/-- Every log-maintenance step removes entries only from the front. -/
theorem log_step_head_drop (ig lg : Option Int) (entries : List String) (entry : String) :
    ∃ w, w ++ log_step ig lg entries entry = entries ++ [entry] := by
  simp only [log_step]
  split_ifs with h1 h2
  · exact ⟨(entries ++ [entry]).take 1, List.take_append_drop 1 _⟩
  · exact ⟨(entries ++ [entry]).take 1, List.take_append_drop 1 _⟩
  · exact ⟨[], rfl⟩

/-- The whole run's log maintenance removes entries only from the front: the
final log is a trailing segment of the initial log followed by the appended
entries. -/
theorem log_fold_head_drop (ig lg : Option Int) :
    ∀ (news init : List String), ∃ w, w ++ log_fold ig lg init news = init ++ news := by
  intro news
  induction news with
  | nil => intro init; exact ⟨[], by simp [log_fold]⟩
  | cons x rest ih =>
    intro init
    obtain ⟨w1, hw1⟩ := ih (log_step ig lg init x)
    obtain ⟨w2, hw2⟩ := log_step_head_drop ig lg init x
    refine ⟨w2 ++ w1, ?_⟩
    show w2 ++ w1 ++ log_fold ig lg (log_step ig lg init x) rest = init ++ (x :: rest)
    rw [List.append_assoc, hw1, ← List.append_assoc, hw2, List.append_assoc]
    simp

/-- Exact final length of the maintained log (positive `--ignore` window,
no `--log_downloads`). -/
theorem log_fold_length (m : Int) (hm : 1 ≤ m) :
    ∀ (news init : List String),
      (log_fold (some m) none init news).length =
        if m ≤ (init.length : Int) then init.length
        else min (init.length + news.length) m.toNat := by
  intro news
  induction news with
  | nil =>
    intro init
    simp only [log_fold, List.foldl_nil, List.length_nil, Nat.add_zero]
    split_ifs with h
    · rfl
    · omega
  | cons x rest ih =>
    intro init
    have hstep := log_step_length m hm init x
    show (log_fold (some m) none (log_step (some m) none init x) rest).length = _
    rw [ih, hstep]
    simp only [List.length_cons]
    split_ifs <;> omega

/-- C4 (amended): each downloaded photo's `guid:filename` line is appended to
the log and the maintenance removes at most one oldest entry per append, so
(with a positive `--ignore` window and `--log_downloads` unset) the written
log is a trailing segment of the initial log followed by the appended lines;
its final length is `min(initial + appended, window)` when the log starts
within the window — and exactly the initial length otherwise, so a log
longer than the window is not truncated down to it. -/
theorem log_fold_window_bound (m : Int) (hm : 1 ≤ m) (init news : List String) :
    (∃ w, w ++ log_fold (some m) none init news = init ++ news) ∧
    (log_fold (some m) none init news).length =
      (if m ≤ (init.length : Int) then init.length
       else min (init.length + news.length) m.toNat) ∧
    ((init.length : Int) ≤ m → ((log_fold (some m) none init news).length : Int) ≤ m) := by
  refine ⟨log_fold_head_drop (some m) none news init, log_fold_length m hm news init, ?_⟩
  intro hinit
  rw [log_fold_length m hm news init]
  split_ifs with h <;> omega

theorem log_fold_window_bound_witness :
    (∃ w, w ++ log_fold (some 2) none ["a:1"] ["b:2", "c:3"] = ["a:1"] ++ ["b:2", "c:3"]) ∧
    (log_fold (some 2) none ["a:1"] ["b:2", "c:3"]).length =
      (if (2 : Int) ≤ ((["a:1"] : List String).length : Int) then (["a:1"] : List String).length
       else min ((["a:1"] : List String).length + (["b:2", "c:3"] : List String).length)
         (2 : Int).toNat) ∧
    (((["a:1"] : List String).length : Int) ≤ 2 →
      ((log_fold (some 2) none ["a:1"] ["b:2", "c:3"]).length : Int) ≤ 2) :=
  log_fold_window_bound 2 (by decide) ["a:1"] ["b:2", "c:3"]

/-- The model `sample_model` satisfies the contract of `random.sample`: for
`0 ≤ k ≤ len(pop)` it returns `k` elements of `pop`. -/
theorem sample_model_contract :
    ∀ (pop : List String) (k : Int), 0 ≤ k → k ≤ (pop.length : Int) →
      ∃ l, sample_model pop k = .ok l ∧ (l.length : Int) = k ∧ ∀ g ∈ l, g ∈ pop := by
  intro pop k h0 hk
  refine ⟨pop.take k.toNat, ?_, ?_, ?_⟩
  · unfold sample_model
    rw [if_neg (by omega : ¬ (k < 0 ∨ (pop.length : Int) < k))]
  · have h := List.length_take k.toNat pop
    omega
  · intro g hg
    exact List.mem_of_mem_take hg

/-- C8 (amended): when fewer photos are available than requested, selection
raises the "not enough photos" `ValueError`; for a nonnegative request within
the available count, any behaviour satisfying `random.sample`'s contract
returns exactly `count` photos drawn from the available set; and whenever
selection raises a `ValueError`, the run downloads nothing, logs the message,
and writes the log file back unchanged. -/
theorem select_random_photos_spec {V : Type}
    (sample : List String → Int → Except PyError (List String))
    (hsample : ∀ (pop : List String) (k : Int), 0 ≤ k → k ≤ (pop.length : Int) →
      ∃ l, sample pop k = .ok l ∧ (l.length : Int) = k ∧ ∀ g ∈ l, g ∈ pop)
    (data : List (String × V)) (ignore_list : List String) (count : Int) :
    (((available_photos data ignore_list).length : Int) < count →
      select_random_photos sample data ignore_list count =
        .error (.valueError "Not enough new photos available to download.")) ∧
    (0 ≤ count → count ≤ ((available_photos data ignore_list).length : Int) →
      ∃ l, select_random_photos sample data ignore_list count = .ok l ∧
        (l.length : Int) = count ∧ ∀ g ∈ l, g ∈ available_photos data ignore_list) ∧
    (∀ (C : Type) (sample2 : List String → Int → Except PyError (List String))
        (http : List Char → Nat × C) (args : RunArgs) (data2 : List (String × AssetUrl))
        (log0 : List String) (directory : List Char) (msg : String),
      data2 ≠ [] →
      select_random_photos sample2 data2 (run_ignore_list args.ignore log0) args.count =
        .error (.valueError msg) →
      (run_phase sample2 http args data2 log0 directory).writes = [] ∧
      (run_phase sample2 http args data2 log0 directory).saved_log = some log0 ∧
      (run_phase sample2 http args data2 log0 directory).errors = [msg]) := by
  refine ⟨?_, ?_, ?_⟩
  · intro h
    simp [select_random_photos, h]
  · intro h0 hc
    rw [select_random_photos, if_neg (by omega)]
    exact hsample _ count h0 hc
  · intro C sample2 http args data2 log0 directory msg hne hsel
    have hempty : data2.isEmpty = false := by
      cases data2
      · exact absurd rfl hne
      · rfl
    simp [run_phase, hempty, hsel]

theorem select_random_photos_spec_witness :
    select_random_photos sample_model [("g1", (0 : Nat))] [] 2 =
      .error (.valueError "Not enough new photos available to download.") ∧
    (run_phase sample_model c4_http c8_args c4_data ["x"] "./".toList).writes = [] ∧
    (run_phase sample_model c4_http c8_args c4_data ["x"] "./".toList).saved_log = some ["x"] ∧
    (run_phase sample_model c4_http c8_args c4_data ["x"] "./".toList).errors =
      ["Not enough new photos available to download."] :=
  ⟨(select_random_photos_spec sample_model sample_model_contract
      [("g1", (0 : Nat))] [] 2).1 (by decide),
   (select_random_photos_spec sample_model sample_model_contract
      [("g1", (0 : Nat))] [] 2).2.2 Nat sample_model c4_http c8_args c4_data ["x"]
      "./".toList "Not enough new photos available to download." (by decide) (by decide)⟩

theorem has_key_append {V : Type} (l1 l2 : List (String × V)) (k : String) :
    has_key (l1 ++ l2) k = (has_key l1 k || has_key l2 k) := by
  simp [has_key, List.any_append]

theorem dict_set_new_key {V : Type} (l : List (String × V)) (k : String) (v : V)
    (h : has_key l k = false) : dict_set l k v = l ++ [(k, v)] := by
  simp [dict_set, h]

/-- The result-building loop of `filter_best_assets`, on checksums that are
pairwise distinct and all new to the accumulator: it appends, in order, one
`(checksum, url)` pair per checksum found in the asset map. -/
theorem assets_fill_go {V : Type} (assets : List (String × V)) :
    ∀ (cks : List (Option String)) (acc : List (String × V)),
      (cks.filterMap id).Nodup →
      (∀ c ∈ cks.filterMap id, has_key acc c = false) →
      cks.foldl (fill_step assets) acc =
        acc ++ cks.filterMap (fun c? => c?.bind fun c => (assets.lookup c).map fun v => (c, v)) := by
  intro cks
  induction cks with
  | nil => intro acc _ _; simp
  | cons c? rest ih =>
    intro acc hnd hdisj
    cases c? with
    | none =>
      simp only [List.filterMap_cons, id_eq] at hnd hdisj
      rw [List.foldl_cons]
      have hstep : fill_step assets acc none = acc := rfl
      rw [hstep, ih acc hnd hdisj, List.filterMap_cons]
      simp
    | some c =>
      simp only [List.filterMap_cons, id_eq] at hnd hdisj
      have hnd2 := List.nodup_cons.mp hnd
      have hacc : has_key acc c = false := hdisj c (by simp)
      have hdisj2 : ∀ c2 ∈ List.filterMap id rest, has_key acc c2 = false :=
        fun c2 hc2 => hdisj c2 (by simp [hc2])
      rw [List.foldl_cons]
      cases hlook : assets.lookup c with
      | none =>
        have hstep : fill_step assets acc (some c) = acc := by
          simp [fill_step, hlook]
        rw [hstep, ih acc hnd2.2 hdisj2, List.filterMap_cons]
        simp [hlook]
      | some v =>
        have hstep : fill_step assets acc (some c) = acc ++ [(c, v)] := by
          simp [fill_step, hlook, dict_set_new_key acc c v hacc]
        have hdisj3 : ∀ c2 ∈ List.filterMap id rest, has_key (acc ++ [(c, v)]) c2 = false := by
          intro c2 hc2
          rw [has_key_append, hdisj2 c2 hc2]
          have hne : c2 ≠ c := fun hh => hnd2.1 (hh ▸ hc2)
          have hone : has_key [(c, v)] c2 = false := by
            simp only [has_key, List.any_cons, List.any_nil, Bool.or_false]
            exact beq_eq_false_iff_ne.mpr (fun hh => hne hh.symm)
          rw [hone]
          rfl
        rw [hstep, ih (acc ++ [(c, v)]) hnd2.2 hdisj3, List.filterMap_cons]
        simp [hlook]

/-- C3 (amended): the Asset Selector returns an ordered mapping whose keys
are the chosen best derivatives' checksums (not the photo GUIDs), in photo
order (assuming the chosen checksums are pairwise distinct): exactly those
chosen checksums present in the checksum→URL map appear, each mapped to its
URL; photos without a selected derivative contribute nothing. -/
theorem filter_best_assets_checksum_keys {V : Type} (photos : List Photo)
    (assets : List (String × V)) (cks : List (Option String))
    (h1 : best_checksums photos = .ok cks) (h2 : (cks.filterMap id).Nodup) :
    filter_best_assets photos assets =
      .ok (cks.filterMap (fun c? => c?.bind fun c => (assets.lookup c).map fun v => (c, v))) := by
  simp only [filter_best_assets, h1, assets_fill]
  rw [assets_fill_go assets cks [] h2 (fun c _ => rfl)]
  simp

theorem filter_best_assets_checksum_keys_witness :
    filter_best_assets
      [⟨"G1", [("d", ⟨some "2", some "2", some "C1"⟩)]⟩,
       ⟨"G2", [("d", ⟨some "3", some "1", some "C2"⟩)]⟩]
      [("C1", (10 : Nat)), ("C2", 20)] =
      .ok (([some "C1", some "C2"] : List (Option String)).filterMap
        (fun c? => c?.bind fun c =>
          (([("C1", (10 : Nat)), ("C2", 20)] : List (String × Nat)).lookup c).map
            fun v => (c, v))) :=
  filter_best_assets_checksum_keys _ _ [some "C1", some "C2"] (by decide) (by decide)

theorem best_fold_no_improve :
    ∀ (l : List (Int × Derivative)) (m : Int) (b : Option Derivative),
      (∀ x ∈ l, x.1 ≤ m) → best_fold l (m, b) = (m, b) := by
  intro l
  induction l with
  | nil => intro m b _; rfl
  | cons a t ih =>
    intro m b h
    have ha : a.1 ≤ m := h a (by simp)
    rw [best_fold, if_neg (by omega)]
    exact ih m b (fun x hx => h x (by simp [hx]))

/-- The selector fold either keeps its accumulator (when nothing beats it) or
returns the first element strictly beating everything before it and at least
everything after it: the first element attaining the maximum. -/
theorem best_fold_spec :
    ∀ (l : List (Int × Derivative)) (m : Int) (b : Option Derivative),
      (∀ x ∈ l, x.1 ≤ m) ∨
      (∃ z1 x z2, l = z1 ++ x :: z2 ∧ best_fold l (m, b) = (x.1, some x.2) ∧ m < x.1 ∧
        (∀ y ∈ z1, y.1 < x.1) ∧ (∀ y ∈ z2, y.1 ≤ x.1)) := by
  intro l
  induction l with
  | nil => intro m b; left; simp
  | cons a t ih =>
    intro m b
    by_cases hm : m < a.1
    · right
      rcases ih a.1 (some a.2) with hle | ⟨z1, x, z2, hsplit, hfold, hmx, hz1, hz2⟩
      · refine ⟨[], a, t, by simp, ?_, hm, by simp, hle⟩
        rw [best_fold, if_pos hm]
        exact best_fold_no_improve t a.1 (some a.2) hle
      · refine ⟨a :: z1, x, z2, by simp [hsplit], ?_, by omega, ?_, hz2⟩
        · rw [best_fold, if_pos hm]
          exact hfold
        · intro y hy
          rcases List.mem_cons.mp hy with h1 | h1
          · subst h1; omega
          · exact hz1 y h1
    · rcases ih m b with hle | ⟨z1, x, z2, hsplit, hfold, hmx, hz1, hz2⟩
      · left
        intro x hx
        rcases List.mem_cons.mp hx with h1 | h1
        · subst h1; omega
        · exact hle x h1
      · right
        refine ⟨a :: z1, x, z2, by simp [hsplit], ?_, hmx, ?_, hz2⟩
        · rw [best_fold, if_neg hm]
          exact hfold
        · intro y hy
          rcases List.mem_cons.mp hy with h1 | h1
          · subst h1; omega
          · exact hz1 y h1

/-- When every area parses, the monadic selector loop computes the pure fold
over the `(area, derivative)` pairs. -/
theorem best_loop_eq_fold :
    ∀ (l : List (String × Derivative)) (as : List Int) (acc : Int × Option Derivative),
      deriv_areas l = .ok as →
      best_loop l acc = .ok (best_fold (as.zip (l.map Prod.snd)) acc) := by
  intro l
  induction l with
  | nil =>
    intro as acc h
    injection h with h2
    subst h2
    rfl
  | cons kv rest ih =>
    intro as acc h
    cases hda : deriv_area kv.2 with
    | error e =>
      simp only [deriv_areas, hda] at h
      exact Except.noConfusion h
    | ok a =>
      simp only [deriv_areas, hda] at h
      cases hdr : deriv_areas rest with
      | error e =>
        simp only [hdr] at h
        exact Except.noConfusion h
      | ok as2 =>
        simp only [hdr] at h
        injection h with h2
        subst h2
        simp only [List.map_cons, List.zip_cons_cons, best_fold, best_loop, best_step, hda]
        exact ih as2 _ hdr

/-- C6 (amended): for every photo having a derivative of strictly positive
area (all areas parsing), the selector returns the first derivative attaining
the maximal width×height product: the chosen pair strictly beats all earlier
pairs (so equal-area ties keep the first encountered) and is at least every
later pair. -/
theorem best_derivative_argmax (g : String) (l : List (String × Derivative)) (as : List Int)
    (h1 : deriv_areas l = .ok as)
    (h2 : ∃ x ∈ as.zip (l.map Prod.snd), 0 < x.1) :
    ∃ z1 x z2, as.zip (l.map Prod.snd) = z1 ++ x :: z2 ∧
      best_derivative_of ⟨g, l⟩ = .ok (some x.2) ∧ 0 < x.1 ∧
      (∀ y ∈ z1, y.1 < x.1) ∧ (∀ y ∈ z2, y.1 ≤ x.1) := by
  obtain ⟨w, hw, hwpos⟩ := h2
  rcases best_fold_spec (as.zip (l.map Prod.snd)) 0 none with
    hle | ⟨z1, x, z2, hsplit, hfold, hmx, hz1, hz2⟩
  · exact absurd (hle w hw) (by omega)
  · refine ⟨z1, x, z2, hsplit, ?_, hmx, hz1, hz2⟩
    simp only [best_derivative_of, best_loop_eq_fold l as (0, none) h1, hfold]

theorem best_derivative_argmax_witness :
    ∃ z1 x z2,
      (([1, 6] : List Int).zip ([("a", c6_dA), ("b", c6_dB)].map Prod.snd)) = z1 ++ x :: z2 ∧
      best_derivative_of ⟨"G", [("a", c6_dA), ("b", c6_dB)]⟩ = .ok (some x.2) ∧ 0 < x.1 ∧
      (∀ y ∈ z1, y.1 < x.1) ∧ (∀ y ∈ z2, y.1 ≤ x.1) :=
  best_derivative_argmax "G" [("a", c6_dA), ("b", c6_dB)] [1, 6] (by decide)
    ⟨(6, c6_dB), by decide, by decide⟩

/-- A photo all of whose derivative areas are 0 leaves the selector
accumulator at `(0, None)`. -/
theorem best_loop_none (l : List (String × Derivative)) :
    ∀ as : List Int, deriv_areas l = .ok as → (∀ a ∈ as, a = 0) →
      best_loop l (0, none) = .ok (0, none) := by
  induction l with
  | nil => intro as _ _; rfl
  | cons kv rest ih =>
    intro as h hall
    cases hda : deriv_area kv.2 with
    | error e =>
      simp only [deriv_areas, hda] at h
      exact Except.noConfusion h
    | ok a =>
      simp only [deriv_areas, hda] at h
      cases hdr : deriv_areas rest with
      | error e =>
        simp only [hdr] at h
        exact Except.noConfusion h
      | ok as2 =>
        simp only [hdr] at h
        injection h with h2
        subst h2
        have ha : a = 0 := hall a (by simp)
        simp only [best_loop, best_step, hda, if_neg (by omega : ¬ ((0 : Int) < a))]
        exact ih as2 hdr (fun b hb => hall b (by simp [hb]))

/-- C9 (amended): a photo whose derivative set is empty or whose derivatives
all have width×height equal to 0 (with missing width/height defaulting to
`'0'`) contributes no entry to the selector's result: dropping it leaves the
result unchanged.  (A non-numeric width/height instead raises `ValueError`,
aborting the whole selector call — see the counterexample.) -/
theorem zero_area_photo_excluded {V : Type} (g : String) (l : List (String × Derivative))
    (as : List Int) (h1 : deriv_areas l = .ok as) (h2 : ∀ a ∈ as, a = 0)
    (rest : List Photo) (assets : List (String × V)) :
    filter_best_assets (⟨g, l⟩ :: rest) assets = filter_best_assets rest assets := by
  have hb : best_derivative_of ⟨g, l⟩ = .ok none := by
    simp only [best_derivative_of, best_loop_none l as h1 h2]
  simp only [filter_best_assets, best_checksums, hb]
  cases hc : best_checksums rest <;> simp

theorem zero_area_photo_excluded_witness :
    filter_best_assets [⟨"G", [("d", ⟨some "0", some "5", some "C"⟩)]⟩]
      ([("C", (1 : Nat))]) = filter_best_assets [] [("C", (1 : Nat))] :=
  zero_area_photo_excluded "G" [("d", ⟨some "0", some "5", some "C"⟩)] [0] (by decide)
    (by decide) [] [("C", 1)]

theorem str_index_of_not_mem (s : List Char) (c : Char) (h : c ∉ s) :
    str_index s c = .error (.valueError "substring not found") := by
  induction s with
  | nil => rfl
  | cons x xs ih =>
    have h2 : c ∉ xs := fun hh => h (List.mem_cons_of_mem x hh)
    rw [str_index, if_neg (fun hh => h (by simp [hh])), ih h2]

/-- Python `str.index` really is the first occurrence. -/
theorem str_index_first (s : List Char) (c : Char) (h : c ∈ s) :
    ∃ i, str_index s c = .ok i ∧ s.get? i = some c ∧ ∀ k, k < i → s.get? k ≠ some c := by
  induction s with
  | nil => cases h
  | cons x xs ih =>
    by_cases hx : x = c
    · refine ⟨0, by rw [str_index, if_pos hx], by simp [hx], ?_⟩
      intro k hk
      omega
    · have hmem : c ∈ xs := by
        rcases List.mem_cons.mp h with h1 | h1
        · exact absurd h1.symm hx
        · exact h1
      obtain ⟨i, hok, hget, hbefore⟩ := ih hmem
      refine ⟨i + 1, by rw [str_index, if_neg hx, hok], by simpa using hget, ?_⟩
      intro k hk
      cases k with
      | zero => simp [hx]
      | succ k2 => simpa using hbefore k2 (by omega)

theorem str_rindex_of_not_mem (s : List Char) (c : Char) (h : c ∉ s) :
    str_rindex s c = .error (.valueError "substring not found") := by
  induction s with
  | nil => rfl
  | cons x xs ih =>
    have h2 : c ∉ xs := fun hh => h (List.mem_cons_of_mem x hh)
    rw [str_rindex, ih h2, if_neg (fun hh => h (by simp [hh]))]

/-- Python `str.rindex` really is the last occurrence. -/
theorem str_rindex_last (s : List Char) (c : Char) (h : c ∈ s) :
    ∃ i, str_rindex s c = .ok i ∧ s.get? i = some c ∧ ∀ k, i < k → s.get? k ≠ some c := by
  induction s with
  | nil => cases h
  | cons x xs ih =>
    by_cases hmem : c ∈ xs
    · obtain ⟨i, hok, hget, hafter⟩ := ih hmem
      refine ⟨i + 1, by rw [str_rindex, hok], by simpa using hget, ?_⟩
      intro k hk
      cases k with
      | zero => omega
      | succ k2 => simpa using hafter k2 (by omega)
    · have hx : x = c := by
        rcases List.mem_cons.mp h with h1 | h1
        · exact h1.symm
        · exact absurd h1 hmem
      refine ⟨0, ?_, by simp [hx], ?_⟩
      · rw [str_rindex, str_rindex_of_not_mem xs c hmem, if_pos hx]
      · intro k hk
        cases k with
        | zero => omega
        | succ k2 =>
          intro hc
          exact hmem (List.get?_mem hc)

/-- C10: `get_source_filename` raises (a `ValueError`) whenever the URL lacks
a `?` or lacks a `/`; when both are present it returns exactly the slice
between the last `/` of the whole URL and the first `?`. -/
theorem get_source_filename_spec (url : List Char) :
    (('?' ∉ url ∨ '/' ∉ url) → ∃ e, get_source_filename url = .error e) ∧
    ('?' ∈ url → '/' ∈ url →
      ∃ i j, url.get? i = some '/' ∧ (∀ k, i < k → url.get? k ≠ some '/') ∧
        url.get? j = some '?' ∧ (∀ k, k < j → url.get? k ≠ some '?') ∧
        get_source_filename url = .ok (py_slice url (i + 1) j)) := by
  constructor
  · intro h
    rcases h with h | h
    · cases hr : str_rindex url '/' with
      | error e => exact ⟨e, by rw [get_source_filename, hr]⟩
      | ok ri =>
        exact ⟨.valueError "substring not found",
          by rw [get_source_filename, hr, str_index_of_not_mem url '?' h]⟩
    · exact ⟨.valueError "substring not found",
        by rw [get_source_filename, str_rindex_of_not_mem url '/' h]⟩
  · intro hq hs
    obtain ⟨i, hiok, higet, hiafter⟩ := str_rindex_last url '/' hs
    obtain ⟨j, hjok, hjget, hjbefore⟩ := str_index_first url '?' hq
    exact ⟨i, j, higet, hiafter, hjget, hjbefore,
      by rw [get_source_filename, hiok, hjok]⟩

theorem get_source_filename_spec_witness :
    (∃ e, get_source_filename "https://h/p/x.jpg".toList = .error e) ∧
    (∃ i j, ("https://h/p/x.jpg?q=1".toList).get? i = some '/' ∧
      (∀ k, i < k → ("https://h/p/x.jpg?q=1".toList).get? k ≠ some '/') ∧
      ("https://h/p/x.jpg?q=1".toList).get? j = some '?' ∧
      (∀ k, k < j → ("https://h/p/x.jpg?q=1".toList).get? k ≠ some '?') ∧
      get_source_filename "https://h/p/x.jpg?q=1".toList =
        .ok (py_slice "https://h/p/x.jpg?q=1".toList (i + 1) j)) :=
  ⟨(get_source_filename_spec "https://h/p/x.jpg".toList).1 (Or.inl (by decide)),
   (get_source_filename_spec "https://h/p/x.jpg?q=1".toList).2 (by decide) (by decide)⟩

